import Mathlib

/-!
Verification development for the FEDOT pipeline core.

Shallow embedding of:
* `fedot/sensitivity/deletion_methods/multi_times_analysis.py` (iterative node-deletion search),
* `fedot/core/data/data_split.py` (train/test splitting),
* `fedot/core/operations/evaluation/operation_implementations/models/ts_implementations/rnn.py`
  (recurrent model construction checks).

Conventions: Python floats are modelled as rationals (`ℚ`); Python exceptions as an
`Except PyError` result; Python `None` as `Option.none`.  Methods of classes that are
referenced by the analysed files but whose definitions live outside the analysed sources
(`Chain.delete_node`, `InputData.slice`, ...) are modelled from the specification and are
marked as such in their doc comments.
-/

set_option maxRecDepth 8000

namespace FedotSpec

/-- Python exception values relevant to the analysed code, carrying their message. -/
inductive PyError
  | valueError (msg : String)
  | typeError (msg : String)
  | attributeError (msg : String)
  | assertionError (msg : String)
deriving DecidableEq, Repr

/-- Single-quote character as a string (used to reproduce Python message texts). -/
def sq : String := String.singleton (Char.ofNat 39)

/-- Python `", ".join(...)` over a list of strings. -/
def joinComma : List String → String
  | [] => ""
  | [s] => s
  | s :: t :: r => s ++ ", " ++ joinComma (t :: r)

/-- Python `round` on a real value: round half to even (banker's rounding). -/
def pyRound (q : ℚ) : Int :=
  let f : Int := ⌊q⌋
  if q - f < 1/2 then f
  else if q - f > 1/2 then f + 1
  else if f % 2 = 0 then f else f + 1

/-- Python `x or d` for an optional integer `x` (falsy: `None` and `0`). -/
def pyOrInt (s : Option Int) (d : Int) : Int :=
  match s with
  | some v => if v = 0 then d else v
  | none => d

/-- Test whether `sub` is a leading segment of `l`. -/
def listPre : List Char → List Char → Bool
  | [], _ => true
  | _ :: _, [] => false
  | a :: as, b :: bs => a = b && listPre as bs

/-- Test whether `sub` occurs contiguously inside `l`. -/
def listOccurs (sub : List Char) : List Char → Bool
  | [] => listPre sub []
  | c :: t => listPre sub (c :: t) || listOccurs sub t

/-- Executable contiguous-substring test on strings. -/
def strOccurs (sub s : String) : Bool := listOccurs sub.data s.data

/-- Proposition: the string `sub` occurs contiguously inside `s`. -/
def OccursIn (sub s : String) : Prop := ∃ a b : String, s = a ++ sub ++ b

theorem listPre_append_self (sub b : List Char) : listPre sub (sub ++ b) = true := by
  induction sub with
  | nil => rfl
  | cons c t ih => simp [listPre, ih]

theorem listOccurs_append_self (a sub b : List Char) :
    listOccurs sub (a ++ sub ++ b) = true := by
  induction a with
  | nil =>
    show listOccurs sub (sub ++ b) = true
    cases sub with
    | nil => cases b <;> simp [listOccurs, listPre]
    | cons c t =>
      simp only [List.cons_append, listOccurs, Bool.or_eq_true]
      exact Or.inl (listPre_append_self (c :: t) b)
  | cons c t ih =>
    simp only [List.cons_append, listOccurs, Bool.or_eq_true]
    exact Or.inr ih

theorem strOccurs_of_occursIn {sub s : String} (h : OccursIn sub s) :
    strOccurs sub s = true := by
  obtain ⟨a, b, rfl⟩ := h
  show listOccurs sub.data (a ++ sub ++ b).data = true
  have : (a ++ sub ++ b).data = a.data ++ sub.data ++ b.data := by
    simp [String.data_append]
  rw [this]
  exact listOccurs_append_self a.data sub.data b.data

theorem not_occursIn_of_strOccurs_false {sub s : String} (h : strOccurs sub s = false) :
    ¬ OccursIn sub s := by
  intro hocc
  rw [strOccurs_of_occursIn hocc] at h
  cases h

/-!
Embedding of `fedot/sensitivity/deletion_methods/multi_times_analysis.py`.

The chain is modelled as a list of node identifiers (`List ℕ`).  The per-iteration
sensitivity analysis (`MultiTimesAnalyze._chain_analysis`, which delegates to
`NodesAnalysis` outside the analysed sources) is abstracted as an oracle
`sa : List ℕ → List ℚ` returning the `NodeDeletionAnalyze` score of every node of the
current chain, in node order.
-/

/-- Embeds `MTAMetaParams = namedtuple('MTAMetaParams', ['delta', 'worst_node_score'])`. -/
structure MTAMetaParams where
  delta : ℚ
  worst_node_score : ℚ
deriving DecidableEq, Repr

/-- Embeds `MultiTimesAnalyze.default_mta_meta_params = MTAMetaParams(10e-3, 1.1)`
(`10e-3` is the float `0.01`). -/
def default_mta_meta_params : MTAMetaParams := ⟨10 / 1000, 11 / 10⟩

/-- Python `max(lst)` on a list of floats.  Python raises on an empty list; the `0`
default of this model is never reached under the hypotheses used below. -/
def pyMax : List ℚ → ℚ
  | [] => 0
  | x :: xs => xs.foldl max x

/-- Python `lst.index(v)`: index of the first occurrence of `v`.  Python raises when `v`
is absent; this model then returns `lst.length`, which is never reached below. -/
def pyIndex : List ℚ → ℚ → Nat
  | [], _ => 0
  | x :: xs, v => if x = v then 0 else pyIndex xs v + 1

/-- Embeds the `while` loop of `MultiTimesAnalyze.analyze` (multi_times_analysis.py
lines 69-86).  State: current `worst_node_score`, live chain, `total_nodes_deleted`.
One fuel unit is one loop-condition check; `analyze` below supplies enough fuel for the
loop to run to completion (proved in `mtaLoop_fuel_stable`). -/
def mtaLoop (sa : List ℕ → List ℚ) (delta : ℚ) :
    Nat → ℚ → List ℕ → Nat → List ℕ × Nat
  | 0, _, chain, total => (chain, total)
  | fuel + 1, worst, chain, total =>
    if 1 + delta < worst ∧ 2 < chain.length then
      let deletion_scores := sa chain
      let worst2 := pyMax deletion_scores
      if 1 + delta < worst2 then
        mtaLoop sa delta fuel worst2
          (chain.eraseIdx (pyIndex deletion_scores worst2)) (total + 1)
      else
        mtaLoop sa delta fuel worst2 chain total
    else (chain, total)

/-- Embeds the state of a `MultiTimesAnalyze` object: the live chain and
`self.original_chain_len = self.chain.length`, captured at `__init__` (line 40)
and never updated. -/
structure MultiTimesAnalyze where
  chain : List ℕ
  original_chain_len : Nat
deriving DecidableEq, Repr

/-- Embeds `MultiTimesAnalyze.__init__` (the chain-related fields). -/
def MultiTimesAnalyze.init (chain : List ℕ) : MultiTimesAnalyze :=
  ⟨chain, chain.length⟩

/-- Result of `MultiTimesAnalyze.analyze`: the returned ratio, together with the
mutated object state (live chain) and the final `total_nodes_deleted` counter. -/
structure AnalyzeResult where
  ratio : ℚ
  final_chain : List ℕ
  total_deleted : Nat
deriving DecidableEq, Repr

/-- Embeds `MultiTimesAnalyze.analyze` (multi_times_analysis.py lines 51-89) followed by
`_length_reduction_ratio` (lines 91-92).  `meta_params = none` models passing `None`
(`if not meta_params:` then the defaults are used; an `MTAMetaParams` tuple is nonempty,
hence always truthy). -/
def MultiTimesAnalyze.analyze (m : MultiTimesAnalyze) (sa : List ℕ → List ℚ)
    (meta_params : Option MTAMetaParams) : AnalyzeResult :=
  let mp := meta_params.getD default_mta_meta_params
  let r := mtaLoop sa mp.delta (m.chain.length + 1) mp.worst_node_score m.chain 0
  ⟨(r.2 : ℚ) / (m.original_chain_len : ℚ), r.1, r.2⟩

theorem pyMax_mem : ∀ (x : ℚ) (xs : List ℚ), pyMax (x :: xs) ∈ x :: xs := by
  intro x xs
  induction xs generalizing x with
  | nil => simp [pyMax]
  | cons y ys ih =>
    show List.foldl max x (y :: ys) ∈ x :: y :: ys
    simp only [List.foldl_cons]
    have h : List.foldl max (max x y) ys ∈ (max x y) :: ys := ih (max x y)
    rcases List.mem_cons.mp h with h1 | h1
    · rw [h1]
      rcases max_choice x y with hm | hm <;> rw [hm]
      · exact List.mem_cons_self _ _
      · exact List.mem_cons_of_mem _ (List.mem_cons_self _ _)
    · exact List.mem_cons_of_mem _ (List.mem_cons_of_mem _ h1)

theorem le_pyMax : ∀ (x : ℚ) (xs : List ℚ), ∀ s ∈ x :: xs, s ≤ pyMax (x :: xs) := by
  intro x xs
  induction xs generalizing x with
  | nil => intro s hs; simp at hs; simp [pyMax, hs]
  | cons y ys ih =>
    intro s hs
    show s ≤ List.foldl max x (y :: ys)
    simp only [List.foldl_cons]
    rcases List.mem_cons.mp hs with h1 | h1
    · subst h1
      exact le_trans (le_max_left s y) (ih (max s y) _ (List.mem_cons_self _ _))
    · rcases List.mem_cons.mp h1 with h2 | h2
      · subst h2
        exact le_trans (le_max_right x s) (ih (max x s) _ (List.mem_cons_self _ _))
      · exact ih (max x y) s (List.mem_cons_of_mem _ h2)

theorem pyIndex_get {l : List ℚ} {v : ℚ} (h : v ∈ l) :
    l[pyIndex l v]? = some v := by
  induction l with
  | nil => cases h
  | cons x xs ih =>
    by_cases hx : x = v
    · simp [pyIndex, hx]
    · rcases List.mem_cons.mp h with h1 | h1
      · exact absurd h1.symm hx
      · simp [pyIndex, hx, ih h1]

theorem pyIndex_first {l : List ℚ} {v : ℚ} :
    ∀ j < pyIndex l v, l[j]? ≠ some v := by
  induction l with
  | nil => intro j hj; simp [pyIndex] at hj
  | cons x xs ih =>
    intro j hj
    by_cases hx : x = v
    · simp [pyIndex, hx] at hj
    · simp only [pyIndex, hx, if_false] at hj
      cases j with
      | zero => simpa using hx
      | succ k =>
        simpa using ih k (Nat.lt_of_succ_lt_succ hj)

theorem pyIndex_lt_length {l : List ℚ} {v : ℚ} (h : v ∈ l) :
    pyIndex l v < l.length := by
  induction l with
  | nil => cases h
  | cons x xs ih =>
    by_cases hx : x = v
    · simp [pyIndex, hx]
    · rcases List.mem_cons.mp h with h1 | h1
      · exact absurd h1.symm hx
      · simpa [pyIndex, hx] using Nat.succ_lt_succ (ih h1)

theorem pyMax_mem_of_ne_nil {l : List ℚ} (h : l ≠ []) : pyMax l ∈ l := by
  cases l with
  | nil => exact absurd rfl h
  | cons x xs => exact pyMax_mem x xs

theorem le_pyMax_all {l : List ℚ} : ∀ s ∈ l, s ≤ pyMax l := by
  cases l with
  | nil => intro s hs; cases hs
  | cons x xs => exact le_pyMax x xs

/-- One unfolding of the `analyze` loop at nonzero fuel. -/
theorem mtaLoop_succ (sa : List ℕ → List ℚ) (delta : ℚ) (fuel : ℕ) (w : ℚ)
    (chain : List ℕ) (total : ℕ) :
    mtaLoop sa delta (fuel + 1) w chain total =
      if 1 + delta < w ∧ 2 < chain.length then
        (if 1 + delta < pyMax (sa chain) then
          mtaLoop sa delta fuel (pyMax (sa chain))
            (chain.eraseIdx (pyIndex (sa chain) (pyMax (sa chain)))) (total + 1)
        else
          mtaLoop sa delta fuel (pyMax (sa chain)) chain total)
      else (chain, total) := rfl

/-- When `worst_node_score` is not above the threshold the loop exits immediately. -/
theorem mtaLoop_exit (sa : List ℕ → List ℚ) (delta : ℚ) {w : ℚ}
    (hw : ¬ 1 + delta < w) (fuel : ℕ) (chain : List ℕ) (total : ℕ) :
    mtaLoop sa delta fuel w chain total = (chain, total) := by
  cases fuel with
  | zero => rfl
  | succ fuel =>
    rw [mtaLoop_succ, if_neg]
    intro hc
    exact hw hc.1

/-- Loop invariant: the live chain never drops below 2 nodes, and each recorded deletion
removes exactly one node (`total' + length' = total + length`).  Requires the analysis
oracle to return one score per node, as `NodesAnalysis` does. -/
theorem mtaLoop_invariant (sa : List ℕ → List ℚ) (delta : ℚ)
    (hsa : ∀ c, (sa c).length = c.length) :
    ∀ (fuel : ℕ) (w : ℚ) (chain : List ℕ) (total : ℕ), 2 ≤ chain.length →
      2 ≤ (mtaLoop sa delta fuel w chain total).1.length ∧
      (mtaLoop sa delta fuel w chain total).2 +
          (mtaLoop sa delta fuel w chain total).1.length = total + chain.length := by
  intro fuel
  induction fuel with
  | zero => intro w chain total h2; exact ⟨h2, rfl⟩
  | succ fuel ih =>
    intro w chain total h2
    rw [mtaLoop_succ]
    by_cases hc : 1 + delta < w ∧ 2 < chain.length
    · rw [if_pos hc]
      by_cases h3 : 1 + delta < pyMax (sa chain)
      · rw [if_pos h3]
        have hne : sa chain ≠ [] := by
          intro hnil
          have := hsa chain
          rw [hnil] at this
          simp at this
          omega
        have hidx : pyIndex (sa chain) (pyMax (sa chain)) < chain.length := by
          have := pyIndex_lt_length (pyMax_mem_of_ne_nil hne)
          rwa [hsa chain] at this
        have hlen' := List.length_eraseIdx_of_lt hidx
        have h2' : 2 ≤ (chain.eraseIdx (pyIndex (sa chain) (pyMax (sa chain)))).length := by
          omega
        obtain ⟨ha, hb⟩ := ih (pyMax (sa chain))
          (chain.eraseIdx (pyIndex (sa chain) (pyMax (sa chain)))) (total + 1) h2'
        refine ⟨ha, ?_⟩
        rw [hb, hlen']
        omega
      · rw [if_neg h3]
        exact ih (pyMax (sa chain)) chain total h2
    · rw [if_neg hc]
      exact ⟨h2, rfl⟩

/-- Fuel stability: one extra unit of fuel does not change the result once the fuel is at
least the chain length.  This is the termination argument for the `while` loop. -/
theorem mtaLoop_fuel_stable (sa : List ℕ → List ℚ) (delta : ℚ)
    (hsa : ∀ c, (sa c).length = c.length) :
    ∀ (fuel : ℕ) (w : ℚ) (chain : List ℕ) (total : ℕ), chain.length ≤ fuel →
      mtaLoop sa delta (fuel + 1) w chain total =
        mtaLoop sa delta (fuel + 2) w chain total := by
  intro fuel
  induction fuel with
  | zero =>
    intro w chain total hf
    have hnil : chain.length = 0 := Nat.le_zero.mp hf
    rw [mtaLoop_succ, mtaLoop_succ, if_neg, if_neg] <;>
      · intro hc; omega
  | succ fuel ih =>
    intro w chain total hf
    rw [mtaLoop_succ sa delta (fuel + 1), mtaLoop_succ sa delta (fuel + 2)]
    by_cases hc : 1 + delta < w ∧ 2 < chain.length
    · rw [if_pos hc, if_pos hc]
      by_cases h3 : 1 + delta < pyMax (sa chain)
      · rw [if_pos h3, if_pos h3]
        have hne : sa chain ≠ [] := by
          intro hnil
          have := hsa chain
          rw [hnil] at this
          simp at this
          omega
        have hidx : pyIndex (sa chain) (pyMax (sa chain)) < chain.length := by
          have := pyIndex_lt_length (pyMax_mem_of_ne_nil hne)
          rwa [hsa chain] at this
        have hlen' := List.length_eraseIdx_of_lt hidx
        exact ih (pyMax (sa chain))
          (chain.eraseIdx (pyIndex (sa chain) (pyMax (sa chain)))) (total + 1) (by omega)
      · rw [if_neg h3, if_neg h3]
        rw [mtaLoop_exit sa delta h3, mtaLoop_exit sa delta h3]
    · rw [if_neg hc, if_neg hc]

/-- Any amount of extra fuel beyond `chain.length + 1` gives the same result. -/
theorem mtaLoop_fuel_indep (sa : List ℕ → List ℚ) (delta : ℚ)
    (hsa : ∀ c, (sa c).length = c.length) (w : ℚ) (chain : List ℕ) (total : ℕ) :
    ∀ k : ℕ, mtaLoop sa delta (chain.length + 1 + k) w chain total =
      mtaLoop sa delta (chain.length + 1) w chain total := by
  intro k
  induction k with
  | zero => rfl
  | succ k ih =>
    rw [← ih]
    have := (mtaLoop_fuel_stable sa delta hsa (chain.length + k) w chain total
      (by omega)).symm
    have harr : chain.length + 1 + (k + 1) = chain.length + k + 2 := by omega
    have harr2 : chain.length + 1 + k = chain.length + k + 1 := by omega
    rw [harr, harr2]
    exact this

/-- C1: in `MultiTimesAnalyze.analyze`, each iteration inside the search loop computes
`worst_node_score` as the maximum of the per-node `NodeDeletionAnalyze` scores; when that
maximum exceeds `1 + delta` (the loop is only entered with more than 2 nodes), the node
at the first index attaining the maximum is deleted from the live chain and the deletion
counter is incremented; otherwise the loop stops.  The default meta-parameters are
`delta = 0.01` and initial `worst_node_score = 1.1`. -/
theorem C1_searching_step (sa : List ℕ → List ℚ) (delta w : ℚ) (fuel total : ℕ)
    (chain : List ℕ) (hw : 1 + delta < w) (hlen : 2 < chain.length)
    (hsc : (sa chain).length = chain.length) :
    (pyMax (sa chain) ∈ sa chain ∧ ∀ s ∈ sa chain, s ≤ pyMax (sa chain)) ∧
    (sa chain)[pyIndex (sa chain) (pyMax (sa chain))]? = some (pyMax (sa chain)) ∧
    (∀ j < pyIndex (sa chain) (pyMax (sa chain)), (sa chain)[j]? ≠ some (pyMax (sa chain))) ∧
    mtaLoop sa delta (fuel + 1) w chain total =
      (if 1 + delta < pyMax (sa chain) then
        mtaLoop sa delta fuel (pyMax (sa chain))
          (chain.eraseIdx (pyIndex (sa chain) (pyMax (sa chain)))) (total + 1)
      else (chain, total)) ∧
    default_mta_meta_params.delta = 1 / 100 ∧
    default_mta_meta_params.worst_node_score = 11 / 10 := by
  have hne : sa chain ≠ [] := by
    intro hnil
    rw [hnil] at hsc
    simp at hsc
    omega
  have hmem := pyMax_mem_of_ne_nil hne
  refine ⟨⟨hmem, le_pyMax_all⟩, pyIndex_get hmem, pyIndex_first, ?_, by norm_num [default_mta_meta_params], by norm_num [default_mta_meta_params]⟩
  rw [mtaLoop_succ, if_pos ⟨hw, hlen⟩]
  by_cases h3 : 1 + delta < pyMax (sa chain)
  · rw [if_pos h3, if_pos h3]
  · rw [if_neg h3, if_neg h3]
    exact mtaLoop_exit sa delta h3 fuel chain total

/-- Concrete score oracle used by the witnesses below: every node of a 3-node chain gets
score 1 except the middle one, which gets 1.5. -/
def mtaScoresEx : List ℕ → List ℚ := fun c => c.map (fun i => if i = 1 then 3 / 2 else 1)

theorem C1_searching_step_witness :
    (1 : ℚ) + 1 / 100 < 11 / 10 ∧ 2 < ([0, 1, 2] : List ℕ).length ∧
    (mtaScoresEx [0, 1, 2]).length = ([0, 1, 2] : List ℕ).length ∧
    mtaLoop mtaScoresEx (1 / 100) 4 (11 / 10) [0, 1, 2] 0 = ([0, 2], 1) := by
  have h := C1_searching_step mtaScoresEx (1 / 100) (11 / 10) 3 0 [0, 1, 2]
    (by norm_num) (by decide) (by decide)
  refine ⟨by norm_num, by decide, by decide, ?_⟩
  rw [show (4 : ℕ) = 3 + 1 from rfl, h.2.2.2.1]
  have hscores : mtaScoresEx [0, 1, 2] = [1, 3 / 2, 1] := by
    simp [mtaScoresEx]
  have hmax : pyMax (mtaScoresEx [0, 1, 2]) = 3 / 2 := by
    rw [hscores]
    show List.foldl max (1 : ℚ) [3 / 2, 1] = 3 / 2
    rw [List.foldl_cons, List.foldl_cons, List.foldl_nil,
      show max (1 : ℚ) (3 / 2) = 3 / 2 from max_eq_right (by norm_num),
      show max (3 / 2 : ℚ) 1 = 3 / 2 from max_eq_left (by norm_num)]
  have hidx : pyIndex (mtaScoresEx [0, 1, 2]) (3 / 2) = 1 := by
    rw [hscores]
    show pyIndex [1, 3 / 2, 1] (3 / 2) = 1
    rw [pyIndex, if_neg (by norm_num), pyIndex, if_pos rfl]
  rw [hmax, if_pos (by norm_num), hidx]
  show mtaLoop mtaScoresEx (1 / 100) (2 + 1) (3 / 2) [0, 2] 1 = ([0, 2], 1)
  rw [mtaLoop_succ, if_neg]
  intro hc
  exact absurd hc.2 (by decide)

/-- C2: for every chain with at least 2 nodes, `MultiTimesAnalyze.analyze` terminates
(the loop result is unchanged by any extra fuel beyond `chain.length + 1`), deletes at
most `original_length - 2` nodes (the live chain never drops below 2 nodes), and returns
`total_deleted / original_chain_len` where `original_chain_len` is captured once at
construction; hence the returned ratio lies in `[0, (original_length - 2) / original_length]`. -/
theorem C2_termination_and_ratio (sa : List ℕ → List ℚ)
    (hsa : ∀ c, (sa c).length = c.length) (chain : List ℕ) (h2 : 2 ≤ chain.length)
    (mp : Option MTAMetaParams) :
    (∀ k, mtaLoop sa (mp.getD default_mta_meta_params).delta (chain.length + 1 + k)
        (mp.getD default_mta_meta_params).worst_node_score chain 0 =
      mtaLoop sa (mp.getD default_mta_meta_params).delta (chain.length + 1)
        (mp.getD default_mta_meta_params).worst_node_score chain 0) ∧
    (MultiTimesAnalyze.init chain).original_chain_len = chain.length ∧
    ((MultiTimesAnalyze.init chain).analyze sa mp).total_deleted ≤ chain.length - 2 ∧
    2 ≤ ((MultiTimesAnalyze.init chain).analyze sa mp).final_chain.length ∧
    ((MultiTimesAnalyze.init chain).analyze sa mp).ratio =
      (((MultiTimesAnalyze.init chain).analyze sa mp).total_deleted : ℚ) /
        (chain.length : ℚ) ∧
    0 ≤ ((MultiTimesAnalyze.init chain).analyze sa mp).ratio ∧
    ((MultiTimesAnalyze.init chain).analyze sa mp).ratio ≤
      ((chain.length : ℚ) - 2) / (chain.length : ℚ) := by
  obtain ⟨hfin, hsum⟩ := mtaLoop_invariant sa (mp.getD default_mta_meta_params).delta hsa
    (chain.length + 1) (mp.getD default_mta_meta_params).worst_node_score chain 0 h2
  have htot : (mtaLoop sa (mp.getD default_mta_meta_params).delta (chain.length + 1)
      (mp.getD default_mta_meta_params).worst_node_score chain 0).2 ≤ chain.length - 2 := by
    omega
  refine ⟨mtaLoop_fuel_indep sa _ hsa _ chain 0, rfl, htot, hfin, rfl, ?_, ?_⟩
  · exact div_nonneg (Nat.cast_nonneg _) (Nat.cast_nonneg _)
  · have hpos : (0 : ℚ) < (chain.length : ℚ) := by
      have : (0 : ℕ) < chain.length := by omega
      exact_mod_cast this
    have hcast : ((((MultiTimesAnalyze.init chain).analyze sa mp).total_deleted : ℕ) : ℚ) ≤
        (chain.length : ℚ) - 2 := by
      have hle := (Nat.cast_le (α := ℚ)).mpr htot
      rwa [Nat.cast_sub h2] at hle
    exact div_le_div_of_nonneg_right hcast hpos.le

theorem C2_termination_and_ratio_witness :
    (∀ c, (mtaScoresEx c).length = c.length) ∧
    2 ≤ ([0, 1, 2] : List ℕ).length ∧
    ((MultiTimesAnalyze.init [0, 1, 2]).analyze mtaScoresEx none).total_deleted ≤ 1 ∧
    ((MultiTimesAnalyze.init [0, 1, 2]).analyze mtaScoresEx none).ratio ≤
      ((([0, 1, 2] : List ℕ).length : ℚ) - 2) / (([0, 1, 2] : List ℕ).length : ℚ) := by
  have hsa : ∀ c, (mtaScoresEx c).length = c.length := fun c => List.length_map c _
  have h := C2_termination_and_ratio mtaScoresEx hsa [0, 1, 2] (by decide) none
  exact ⟨hsa, by decide, h.2.2.1, h.2.2.2.2.2.2⟩

/-!
Embedding of `fedot/core/data/data_split.py`.

The data containers (`InputData`, `MultiModalData`), the task/data-type enums and
`sklearn.model_selection.train_test_split` are outside the analysed sources; they are
modelled from the specification as stated in the doc comments below.  Numeric values are
modelled as integers (class labels and feature entries never undergo arithmetic in the
analysed code).
-/

/-- Modelled from the spec: task type enum, `{classification, regression, ts_forecasting}`. -/
inductive TaskTypesEnum
  | classification
  | regression
  | ts_forecasting
deriving DecidableEq, Repr

/-- Python `task_type.name`, as interpolated into the stratification error message. -/
def TaskTypesEnum.pyName : TaskTypesEnum → String
  | .classification => "classification"
  | .regression => "regression"
  | .ts_forecasting => "ts_forecasting"

/-- Modelled from the spec: task descriptor `{type, params}`; the only task parameter the
analysed code reads is `task_params.forecast_length`. -/
structure Task where
  task_type : TaskTypesEnum
  forecast_length : Nat
deriving DecidableEq, Repr

/-- Modelled from the spec: the `target` array of a data container, either 1-dimensional
(a vector of values) or 2-dimensional (rows of values), as observed by
`len(target.shape)` in `_split_time_series`. -/
inductive Target
  | one (v : List Int)
  | two (rows : List (List Int))
deriving DecidableEq, Repr

/-- Numpy `len(target)`: the first-dimension length. -/
def Target.len : Target → Nat
  | .one v => v.length
  | .two rows => rows.length

/-- Numpy `target.ndim` (the length of `target.shape`). -/
def Target.ndim : Target → Nat
  | .one _ => 1
  | .two _ => 2

/-- Flattened view of the target values, as produced by `np.unique` on the array. -/
def Target.flat : Target → List Int
  | .one v => v
  | .two rows => rows.flatten

/-- Contiguous first-dimension slice `target[a:b]`. -/
def Target.slice (a b : Nat) : Target → Target
  | .one v => .one ((v.take b).drop a)
  | .two rows => .two ((rows.take b).drop a)

/-- Modelled from the spec: the typed Data Container — features, target, task descriptor,
data-type tag, index.  `len(data)` is the size of the index.  The `data_type` tag is kept
as an open string (the recognised tags are `multi_ts`, `ts`, `table`, `image`, `text`) so
that unknown tags remain representable, as they are for a dynamically typed container. -/
structure InputData where
  idx : List Nat
  features : List Int
  target : Target
  task : Task
  data_type : String
deriving DecidableEq, Repr

/-- Python `len(data)` for an `InputData`. -/
def InputData.len (d : InputData) : Nat := d.idx.length

/-- Modelled from the spec: `data.slice(a, b)` — contiguous index-range slice of index,
features and target (indices clamped to `[0, len]`). -/
def InputData.slice (d : InputData) (a b : Nat) : InputData :=
  ⟨(d.idx.take b).drop a, (d.features.take b).drop a, d.target.slice a b, d.task,
    d.data_type⟩

/-- Replace the features array of a container (used for the out-of-sample overwrite). -/
def InputData.withFeatures (d : InputData) (f : List Int) : InputData :=
  ⟨d.idx, f, d.target, d.task, d.data_type⟩

/-- Replace the target array of a container. -/
def InputData.withTarget (d : InputData) (t : Target) : InputData :=
  ⟨d.idx, d.features, t, d.task, d.data_type⟩

/-- Embeds data_split.py lines 22-24: `forecast_length` is taken from the task
parameters and multiplied by `validation_blocks` when the latter is not `None`. -/
def ts_forecast_length (data : InputData) (validation_blocks : Option Int) : Int :=
  match validation_blocks with
  | some vb => (data.task.forecast_length : Int) * vb
  | none => (data.task.forecast_length : Int)

/-- The train/test boundary `len(data) - forecast_length` of `_split_time_series`. -/
def ts_cut (data : InputData) (validation_blocks : Option Int) : Nat :=
  ((data.len : Int) - ts_forecast_length data validation_blocks).toNat

/-- Embeds `_split_time_series` (data_split.py lines 13-36): the data is cut contiguously
at `len(data) - forecast_length`; a 2-dimensional test target is reduced to its first
column (`target[:, 0]`); with `validation_blocks` unset (`None`) the test features are
overwritten with the train features (out-of-sample mode). -/
def split_time_series (data : InputData) (validation_blocks : Option Int) :
    InputData × InputData :=
  let cut := ts_cut data validation_blocks
  let train_data := data.slice 0 cut
  let test_data := data.slice cut data.len
  let test_data :=
    match test_data.target with
    | .two rows => test_data.withTarget (.one (rows.map (fun r => r.headD 0)))
    | .one v => test_data.withTarget (.one v)
  let test_data :=
    match validation_blocks with
    | none => test_data.withFeatures train_data.features
    | some _ => test_data
  (train_data, test_data)

/-- The spec formula for the time-series test length:
`forecast_length * max(validation_blocks, 1)` with an unset `validation_blocks`
counting as 1. -/
def spec_ts_test_len (forecast_length : Nat) (validation_blocks : Option Int) : Int :=
  match validation_blocks with
  | some vb => (forecast_length : Int) * max vb 1
  | none => (forecast_length : Int)

theorem split_ts_fst (d : InputData) (vb : Option Int) :
    (split_time_series d vb).1 = d.slice 0 (ts_cut d vb) := by
  unfold split_time_series
  cases (d.slice (ts_cut d vb) d.len).target <;> cases vb <;> rfl

theorem split_ts_snd_idx (d : InputData) (vb : Option Int) :
    (split_time_series d vb).2.idx = (d.slice (ts_cut d vb) d.len).idx := by
  unfold split_time_series
  cases htgt : (d.slice (ts_cut d vb) d.len).target <;> cases vb <;>
    simp [InputData.withTarget, InputData.withFeatures, htgt]

theorem slice_idx (d : InputData) (a b : Nat) :
    (d.slice a b).idx = (d.idx.take b).drop a := rfl

theorem slice_features (d : InputData) (a b : Nat) :
    (d.slice a b).features = (d.features.take b).drop a := rfl

/-- Concrete time-series container: 10 samples, `forecast_length = 2`. -/
def dTs10 : InputData :=
  ⟨List.range 10, (List.range 10).map Int.ofNat, .one ((List.range 10).map Int.ofNat),
    ⟨.ts_forecasting, 2⟩, "ts"⟩

/-- C3 counterexample: for `validation_blocks = 0` the code multiplies the forecast
length by 0 and returns an empty test part, while the claimed formula
`forecast_length * max(validation_blocks, 1)` demands the last `forecast_length`
samples.  Concretely: 10 samples, `forecast_length = 2`, `validation_blocks = 0` — the
code's test part has 0 samples, the claimed formula gives 2. -/
theorem C3_counterexample :
    (split_time_series dTs10 (some 0)).2.len = 0 ∧
    spec_ts_test_len dTs10.task.forecast_length (some 0) = 2 ∧
    ¬ ((split_time_series dTs10 (some 0)).2.len : Int) =
        spec_ts_test_len dTs10.task.forecast_length (some 0) := by
  have h1 : (split_time_series dTs10 (some 0)).2.len = 0 := by
    rw [InputData.len, split_ts_snd_idx]
    decide
  have h2 : spec_ts_test_len dTs10.task.forecast_length (some 0) = 2 := by
    show (2 : Int) * max 0 1 = 2
    rw [max_eq_right (by norm_num)]
    norm_num
  refine ⟨h1, h2, ?_⟩
  rw [h1, h2]
  decide

/-- C3 (amended): for `validation_blocks = None` or `validation_blocks ≥ 1`,
`_split_time_series` performs a deterministic contiguous split: the test part is exactly
the last `forecast_length * max(validation_blocks, 1)` samples and the train part is all
samples before it.  (For `validation_blocks = 0` the code's test part is empty instead —
see the counterexample.) -/
theorem C3_contiguous_split (d : InputData) (vb : Option Int)
    (hvb : vb = none ∨ ∃ v, vb = some v ∧ 1 ≤ v)
    (hk : (spec_ts_test_len d.task.forecast_length vb).toNat ≤ d.len) :
    (split_time_series d vb).1.idx =
      d.idx.take (d.len - (spec_ts_test_len d.task.forecast_length vb).toNat) ∧
    (split_time_series d vb).2.idx =
      d.idx.drop (d.len - (spec_ts_test_len d.task.forecast_length vb).toNat) ∧
    (split_time_series d vb).1.len =
      d.len - (spec_ts_test_len d.task.forecast_length vb).toNat ∧
    (split_time_series d vb).2.len =
      (spec_ts_test_len d.task.forecast_length vb).toNat ∧
    (split_time_series d vb).1.features =
      d.features.take (d.len - (spec_ts_test_len d.task.forecast_length vb).toNat) := by
  have hfl : ts_forecast_length d vb = spec_ts_test_len d.task.forecast_length vb := by
    rcases hvb with h | ⟨v, rfl, hv⟩
    · rw [h]; rfl
    · show (d.task.forecast_length : Int) * v = (d.task.forecast_length : Int) * max v 1
      rw [max_eq_left hv]
  have hflnn : 0 ≤ spec_ts_test_len d.task.forecast_length vb := by
    rcases hvb with h | ⟨v, rfl, hv⟩
    · rw [h]; exact Int.natCast_nonneg _
    · show (0 : Int) ≤ (d.task.forecast_length : Int) * max v 1
      exact mul_nonneg (Int.natCast_nonneg _) (by omega)
  have hcut : ts_cut d vb =
      d.len - (spec_ts_test_len d.task.forecast_length vb).toNat := by
    rw [ts_cut, hfl]
    omega
  have hcut_le : ts_cut d vb ≤ d.len := by omega
  have hidx_len : d.idx.length = d.len := rfl
  refine ⟨?_, ?_, ?_, ?_, ?_⟩
  · rw [split_ts_fst, slice_idx, hcut, List.drop_zero]
  · rw [split_ts_snd_idx, slice_idx, hcut]
    rw [show d.idx.take d.len = d.idx from List.take_of_length_le (by rw [hidx_len])]
  · rw [InputData.len, split_ts_fst, slice_idx, List.drop_zero, List.length_take]
    rw [hcut]
    omega
  · rw [InputData.len, split_ts_snd_idx, slice_idx, List.length_drop, List.length_take]
    rw [hcut]
    omega
  · rw [split_ts_fst, slice_features, List.drop_zero, hcut]

theorem C3_contiguous_split_witness :
    ((some 3 : Option Int) = none ∨ ∃ v, (some 3 : Option Int) = some v ∧ 1 ≤ v) ∧
    (spec_ts_test_len dTs10.task.forecast_length (some 3)).toNat ≤ dTs10.len ∧
    (split_time_series dTs10 (some 3)).2.len =
      (spec_ts_test_len dTs10.task.forecast_length (some 3)).toNat := by
  have hvb : (some 3 : Option Int) = none ∨ ∃ v, (some 3 : Option Int) = some v ∧ 1 ≤ v :=
    Or.inr ⟨3, rfl, by norm_num⟩
  have hk : (spec_ts_test_len dTs10.task.forecast_length (some 3)).toNat ≤ dTs10.len := by
    show ((2 : Int) * max 3 1).toNat ≤ 10
    rw [max_eq_left (by norm_num)]
    decide
  exact ⟨hvb, hk, (C3_contiguous_split dTs10 (some 3) hvb hk).2.2.2.1⟩

theorem split_ts_snd_none_features (d : InputData) :
    (split_time_series d none).2.features = (split_time_series d none).1.features := by
  unfold split_time_series
  cases (d.slice (ts_cut d none) d.len).target <;> rfl

theorem split_ts_snd_target (d : InputData) (vb : Option Int) :
    (split_time_series d vb).2.target =
      (match (d.slice (ts_cut d vb) d.len).target with
       | .two rows => Target.one (rows.map fun r => r.headD 0)
       | .one v => Target.one v) := by
  unfold split_time_series
  cases htgt : (d.slice (ts_cut d vb) d.len).target <;> cases vb <;>
    simp [InputData.withTarget, InputData.withFeatures, htgt]

theorem ts_cut_none (d : InputData) :
    ts_cut d none = d.len - d.task.forecast_length := by
  rw [ts_cut, ts_forecast_length]
  omega

/-- Concrete time-series container: 120 samples, `forecast_length = 12`. -/
def dTs120 : InputData :=
  ⟨List.range 120, (List.range 120).map Int.ofNat, .one ((List.range 120).map Int.ofNat),
    ⟨.ts_forecasting, 12⟩, "ts"⟩

/-- C4: for a time-series split with `validation_blocks` unset (`None`), the returned
test container's features are replaced by the train container's features while the test
target remains the held-out last `forecast_length` values; whenever the sliced test
target has more than one dimension it is reduced to its first column.  Concretely: for a
series of length 120 with `forecast_length = 12`, the train part has length 108, the
test part has length 12, and `test.features = train.features`. -/
theorem C4_out_of_sample (d : InputData)
    (hfl : d.task.forecast_length ≤ d.len) (hti : d.target.len = d.len) :
    (split_time_series d none).2.features = (split_time_series d none).1.features ∧
    (split_time_series d none).1.features =
      d.features.take (d.len - d.task.forecast_length) ∧
    (∀ v, d.target = .one v →
      (split_time_series d none).2.target =
        .one (v.drop (d.len - d.task.forecast_length))) ∧
    (∀ rows, d.target = .two rows →
      (split_time_series d none).2.target =
        .one ((rows.drop (d.len - d.task.forecast_length)).map (fun row => row.headD 0))) ∧
    (split_time_series dTs120 none).1.len = 108 ∧
    (split_time_series dTs120 none).2.len = 12 ∧
    (split_time_series dTs120 none).2.features = (split_time_series dTs120 none).1.features := by
  have h120 : (split_time_series dTs120 none).1.len = 108 ∧
      (split_time_series dTs120 none).2.len = 12 := by
    constructor
    · rw [InputData.len, split_ts_fst, slice_idx, List.drop_zero, List.length_take]
      decide
    · rw [InputData.len, split_ts_snd_idx, slice_idx, List.length_drop, List.length_take]
      decide
  refine ⟨split_ts_snd_none_features d, ?_, ?_, ?_, h120.1, h120.2,
    split_ts_snd_none_features dTs120⟩
  · rw [split_ts_fst, slice_features, List.drop_zero, ts_cut_none]
  · intro v hv
    rw [split_ts_snd_target]
    have hsl : (d.slice (ts_cut d none) d.len).target =
        .one (v.drop (d.len - d.task.forecast_length)) := by
      rw [InputData.slice]
      show Target.slice (ts_cut d none) d.len d.target =
        .one (v.drop (d.len - d.task.forecast_length))
      rw [hv, Target.slice, ts_cut_none]
      have hvl : v.length = d.len := by rw [hv] at hti; exact hti
      rw [List.take_of_length_le (by rw [hvl])]
    rw [hsl]
  · intro rows hrows
    rw [split_ts_snd_target]
    have hsl : (d.slice (ts_cut d none) d.len).target =
        .two (rows.drop (d.len - d.task.forecast_length)) := by
      rw [InputData.slice]
      show Target.slice (ts_cut d none) d.len d.target =
        .two (rows.drop (d.len - d.task.forecast_length))
      rw [hrows, Target.slice, ts_cut_none]
      have hvl : rows.length = d.len := by rw [hrows] at hti; exact hti
      rw [List.take_of_length_le (by rw [hvl])]
    rw [hsl]

theorem C4_out_of_sample_witness :
    dTs120.task.forecast_length ≤ dTs120.len ∧ dTs120.target.len = dTs120.len ∧
    (split_time_series dTs120 none).2.features = (split_time_series dTs120 none).1.features ∧
    (split_time_series dTs120 none).1.len = 108 := by
  have h := C4_out_of_sample dTs120 (by decide) (by decide)
  exact ⟨by decide, by decide, h.1, h.2.2.2.2.1⟩

/-- Insert a value into a sorted list of integers (ascending). -/
def insortI (x : Int) : List Int → List Int
  | [] => [x]
  | y :: ys => if x ≤ y then x :: y :: ys else y :: insortI x ys

/-- Ascending insertion sort on integers. -/
def sortI (l : List Int) : List Int := l.foldr insortI []

/-- Models `np.unique(arr, return_counts=True)` on an integer array: the sorted distinct
values together with their multiplicities.  (`np.unique` never raises on a numeric
array, so the `Counter` fallback of `_are_stratification_allowed` is dead code there.) -/
def npUnique (t : List Int) : List Int × List Nat :=
  let labels := (sortI t).dedup
  (labels, labels.map (fun v => t.count v))

theorem mem_insortI {x v : Int} {l : List Int} : v ∈ insortI x l ↔ v = x ∨ v ∈ l := by
  induction l with
  | nil => simp [insortI]
  | cons y ys ih =>
    by_cases h : x ≤ y
    · simp [insortI, h]
    · simp only [insortI, h, if_false, List.mem_cons, ih]
      tauto

theorem mem_sortI {v : Int} {l : List Int} : v ∈ sortI l ↔ v ∈ l := by
  induction l with
  | nil => simp [sortI]
  | cons x xs ih =>
    show v ∈ insortI x (sortI xs) ↔ _
    rw [mem_insortI]
    simp [ih]

theorem mem_npUnique_labels {v : Int} {t : List Int} :
    v ∈ (npUnique t).1 ↔ v ∈ t := by
  show v ∈ (sortI t).dedup ↔ v ∈ t
  rw [List.mem_dedup, mem_sortI]

/-- The class labels reported in the stratification error: `val` for every
`(val, count)` pair of `zip(*classes)` with `count == 1`. -/
def singleLabels (t : List Int) : List Int :=
  (((npUnique t).1.zip (npUnique t).2).filter (fun p => p.2 = 1)).map (fun p => p.1)

theorem zip_map_filter {β : Type} (f : Int → β) (p : β → Bool) :
    ∀ l : List Int, ((l.zip (l.map f)).filter (fun q => p q.2)).map (fun q => q.1) =
      l.filter (fun x => p (f x)) := by
  intro l
  induction l with
  | nil => rfl
  | cons x xs ih =>
    by_cases h : p (f x)
    · simp only [List.map_cons, List.zip_cons_cons, List.filter_cons]
      rw [if_pos h, if_pos h, List.map_cons, ih]
    · simp only [List.map_cons, List.zip_cons_cons, List.filter_cons]
      rw [if_neg h, if_neg h, ih]

theorem singleLabels_eq_filter (t : List Int) :
    singleLabels t = (npUnique t).1.filter (fun x => t.count x = 1) := by
  show (((npUnique t).1.zip ((npUnique t).1.map (fun v => t.count v))).filter
      (fun p => p.2 = 1)).map (fun p => p.1) = _
  exact zip_map_filter (fun v => t.count v) (fun c => c = 1) (npUnique t).1

theorem mem_singleLabels {v : Int} {t : List Int} :
    v ∈ singleLabels t ↔ t.count v = 1 := by
  rw [singleLabels_eq_filter, List.mem_filter]
  constructor
  · intro ⟨_, h2⟩
    exact of_decide_eq_true h2
  · intro h
    refine ⟨mem_npUnique_labels.mpr ?_, decide_eq_true h⟩
    exact List.count_pos_iff.mp (by omega)

theorem npUnique_all_gt_one_iff (t : List Int) :
    ((npUnique t).2.all fun c => 1 < c) = true ↔ ∀ x ∈ t, t.count x ≠ 1 := by
  rw [List.all_eq_true]
  constructor
  · intro h x hx
    have hmem : t.count x ∈ (npUnique t).2 := by
      show t.count x ∈ (npUnique t).1.map (fun v => t.count v)
      exact List.mem_map_of_mem _ (mem_npUnique_labels.mpr hx)
    have h1 := of_decide_eq_true (h _ hmem)
    omega
  · intro h c hc
    have hc' : c ∈ (npUnique t).1.map (fun v => t.count v) := hc
    obtain ⟨v, hv, rfl⟩ := List.mem_map.mp hc'
    have hvt : v ∈ t := mem_npUnique_labels.mp hv
    have h1 : 0 < t.count v := List.count_pos_iff.mpr hvt
    exact decide_eq_true (by have := h v hvt; omega)

/-- The message of the stratification `ValueError` (data_split.py lines 94-96). -/
def singleton_classes_msg (vals : List Int) (task_name : String) : String :=
  "There is the only value for some classes: " ++
    joinComma (vals.map toString) ++ ". Data split can not be done for " ++
    task_name ++ " task."

/-- Python rendering of an attribute error, e.g.
`'list' object has no attribute 'task'`. -/
def no_attr_msg (type_name attr : String) : String :=
  sq ++ type_name ++ sq ++ " object has no attribute " ++ sq ++ attr ++ sq

/-- The argument of `train_test_data_setup`, which is dynamically typed in Python:
an `InputData`, a `MultiModalData` (modelled from the spec as a mapping from named
data-source keys to `InputData` containers), or any other object.  An `other` object
carries its Python type name and its `task`/`target` attributes when it has them,
since `_are_stratification_allowed` accesses both on arbitrary arguments. -/
inductive SplitArg
  | input (d : InputData)
  | multi (m : List (String × InputData))
  | other (type_name : String) (task_attr : Option Task) (target_attr : Option Target)
deriving DecidableEq, Repr

/-- Python attribute access `data.task`.  Modelled from the spec for `MultiModalData`
(outside the analysed sources): the task of the first member container; an `other`
object without the attribute raises `AttributeError` exactly as Python does. -/
def SplitArg.py_task : SplitArg → Except PyError Task
  | .input d => .ok d.task
  | .multi [] => .error (.attributeError (no_attr_msg "MultiModalData" "task"))
  | .multi ((_, d) :: _) => .ok d.task
  | .other type_name t _ =>
    match t with
    | some task => .ok task
    | none => .error (.attributeError (no_attr_msg type_name "task"))

/-- Python attribute access `data.target` (same modelling remarks as `py_task`). -/
def SplitArg.py_target : SplitArg → Except PyError Target
  | .input d => .ok d.target
  | .multi [] => .error (.attributeError (no_attr_msg "MultiModalData" "target"))
  | .multi ((_, d) :: _) => .ok d.target
  | .other type_name _ tg =>
    match tg with
    | some target => .ok target
    | none => .error (.attributeError (no_attr_msg type_name "target"))

/-- Embeds `_are_stratification_allowed` (data_split.py lines 68-104).  `debug` models
the Python `__debug__` flag (true unless the interpreter runs with `-O`).  Attribute
accesses on the dynamically typed `data` argument can raise, and the singleton-class
check (lines 88-96) runs before the test-size check (lines 99-102). -/
def are_stratification_allowed (debug : Bool) (data : SplitArg) (split_ratio : ℚ) :
    Except PyError Bool := do
  let task ← data.py_task
  if task.task_type ≠ TaskTypesEnum.classification then
    return false
  let target ← data.py_target
  let classes := npUnique target.flat
  if (classes.2.all fun c => 1 < c) = false then
    if debug then
      return false
    else
      Except.error (.valueError
        (singleton_classes_msg (singleLabels target.flat) task.task_type.pyName))
  else
    let test_size := pyRound ((target.len : ℚ) * (1 - split_ratio))
    let labels_count := classes.1.length
    if test_size < (labels_count : Int) then
      return false
    else
      return true

/-- The recognised `data_type` tags of `train_test_data_setup`, in the insertion order
of its `split_func_dict` (data_split.py lines 143-147). -/
def supported_data_types : List String := ["multi_ts", "ts", "table", "image", "text"]

/-- Python `str(x)` for a `DataTypesEnum` member (plain-`Enum` rendering). -/
def str_data_type (tag : String) : String := "DataTypesEnum." ++ tag

/-- The `TypeError` message for an unrecognised `data_type` (data_split.py lines
150-151).  Note that the source interpolates `type(data)` — the class of the container,
always `InputData` in this branch — not the `data_type` tag. -/
def unknown_data_type_msg : String :=
  "Unknown data type <class " ++ sq ++ "fedot.core.data.data.InputData" ++ sq ++
    ">. Supported data types: " ++ joinComma (supported_data_types.map str_data_type)

/-- The `ValueError` message for an unsupported container type (data_split.py lines
161-162). -/
def dataset_not_supported_msg (type_name : String) : String :=
  "Dataset <class " ++ sq ++ type_name ++ sq ++
    "> is not supported. Supported types: InputData, MultiModalData"

/-- The result of a split.  The tabular/image/text branch delegates the actual index
partition to `sklearn.model_selection.train_test_split` (an external collaborator with
its own randomness); its outcome is therefore recorded as the argument tuple passed to
that call: `test_size = 1 - split_ratio`, `shuffle`, the stratification labels
(`data.target` when stratifying, else `None`) and `random_state`. -/
inductive SplitOutcome
  | ts (train test : InputData)
  | anyCall (data : InputData) (split_ratio : ℚ) (shuffle : Bool)
      (stratify_labels : Option Target) (random_seed : Option Int)
  | multi (parts : List (String × SplitOutcome))

/-- Embeds `train_test_data_setup` (data_split.py lines 107-164) specialised to an
`InputData` argument: flag post-processing (lines 128-135) followed by the data-type
dispatch (lines 142-154). -/
def setup_for_input (debug : Bool) (d : InputData) (split_ratio : ℚ)
    (shuffle shuffle_flag stratify : Bool) (random_seed : Option Int)
    (validation_blocks : Option Int) : Except PyError SplitOutcome := do
  let shuffle := shuffle || shuffle_flag
  let allowed ← are_stratification_allowed debug (.input d) split_ratio
  let stratify := stratify && allowed
  let shuffle := shuffle || stratify
  let random_seed : Option Int :=
    if shuffle then some (pyOrInt random_seed 42) else none
  if d.data_type = "multi_ts" ∨ d.data_type = "ts" then
    return .ts (split_time_series d validation_blocks).1
      (split_time_series d validation_blocks).2
  else if d.data_type = "table" ∨ d.data_type = "image" ∨ d.data_type = "text" then
    return .anyCall d split_ratio shuffle
      (if stratify then some d.target else none) random_seed
  else
    Except.error (.typeError unknown_data_type_msg)

/-- Embeds `train_test_data_setup` (data_split.py lines 107-164) for an arbitrary
argument.  The `MultiModalData` branch re-enters the function once per member container
with the post-processed flags and a shared seed; `draw` models the value of
`np.random.randint(0, np.iinfo(int).max)` drawn when the post-processed seed is falsy.
For any other argument the advertised `ValueError` is only reached after
`_are_stratification_allowed` has already accessed `data.task` (line 131 runs first and
`&=` does not short-circuit), so an object without that attribute raises
`AttributeError` instead. -/
def train_test_data_setup (debug : Bool) (data : SplitArg) (split_ratio : ℚ)
    (shuffle shuffle_flag stratify : Bool) (random_seed : Option Int)
    (validation_blocks : Option Int) (draw : Int) : Except PyError SplitOutcome := do
  match data with
  | .input d =>
    setup_for_input debug d split_ratio shuffle shuffle_flag stratify random_seed
      validation_blocks
  | .multi m =>
    let shuffle := shuffle || shuffle_flag
    let allowed ← are_stratification_allowed debug (.multi m) split_ratio
    let stratify := stratify && allowed
    let shuffle := shuffle || stratify
    let random_seed : Option Int :=
      if shuffle then some (pyOrInt random_seed 42) else none
    let shared_seed : Int := pyOrInt random_seed draw
    let parts ← m.mapM (fun kd => do
      let r ← setup_for_input debug kd.2 split_ratio shuffle false stratify
        (some shared_seed) validation_blocks
      pure (kd.1, r))
    return .multi parts
  | .other type_name task_attr target_attr =>
    let _ ← are_stratification_allowed debug (.other type_name task_attr target_attr)
      split_ratio
    Except.error (.valueError (dataset_not_supported_msg type_name))

theorem are_strat_input (debug : Bool) (d : InputData) (r : ℚ) :
    are_stratification_allowed debug (.input d) r =
      (if d.task.task_type ≠ TaskTypesEnum.classification then .ok false
       else if ((npUnique d.target.flat).2.all fun c => 1 < c) = false then
         (if debug then .ok false
          else Except.error (.valueError (singleton_classes_msg
            (singleLabels d.target.flat) d.task.task_type.pyName)))
       else if pyRound ((d.target.len : ℚ) * (1 - r)) <
           ((npUnique d.target.flat).1.length : Int) then .ok false
       else .ok true) := rfl

/-- Concrete classification container with a singleton class and a small test share:
3 samples, classes `{0: 1, 1: 2}`, `split_ratio = 0.8`. -/
def dStratCounter : InputData :=
  ⟨[0, 1, 2], [10, 20, 30], .one [0, 1, 1], ⟨.classification, 0⟩, "table"⟩

/-- C5 counterexample: the claim says stratification is silently disabled (no error)
whenever `round(n * (1 - split_ratio))` is smaller than the number of distinct labels,
but the singleton-class check runs first: for 3 samples with classes `{0: 1, 1: 2}` and
`split_ratio = 0.8` (so `round(0.6) = 1 < 2` labels), a non-debug run raises the
`ValueError` instead of returning `False`. -/
theorem C5_counterexample :
    pyRound ((dStratCounter.target.len : ℚ) * (1 - 4/5)) <
      ((npUnique dStratCounter.target.flat).1.length : Int) ∧
    are_stratification_allowed false (.input dStratCounter) (4/5) =
      .error (.valueError (singleton_classes_msg (singleLabels [0, 1, 1])
        TaskTypesEnum.classification.pyName)) ∧
    ∀ b : Bool, are_stratification_allowed false (.input dStratCounter) (4/5) ≠ .ok b := by
  have hlen : ((dStratCounter.target.len : ℕ) : ℚ) * (1 - 4/5) = 3/5 := by
    show ((3 : ℕ) : ℚ) * (1 - 4/5) = 3/5
    norm_num
  have hround : pyRound ((dStratCounter.target.len : ℚ) * (1 - 4/5)) = 1 := by
    rw [hlen, pyRound]
    have hf : ⌊(3 : ℚ)/5⌋ = 0 := by norm_num
    rw [hf]
    norm_num
  have herr : are_stratification_allowed false (.input dStratCounter) (4/5) =
      .error (.valueError (singleton_classes_msg (singleLabels [0, 1, 1])
        TaskTypesEnum.classification.pyName)) := by
    rw [are_strat_input, if_neg (by decide), if_pos (by decide)]
    rfl
  refine ⟨?_, herr, ?_⟩
  · rw [hround]
    decide
  · intro b
    rw [herr]
    intro h
    cases h

/-- C5 (amended): stratification is attempted only for classification tasks.  When every
class has at least 2 occurrences, it is silently disabled exactly when
`round(n * (1 - split_ratio))` is smaller than the number of distinct labels.  When some
class occurs exactly once, the singleton-class check fires first: under `__debug__` the
split is silently unstratified, otherwise a `ValueError` is raised whose listed labels
are exactly the classes with a single occurrence. -/
theorem C5_stratification_rules (debug : Bool) (d : InputData) (r : ℚ) :
    (d.task.task_type ≠ .classification →
      are_stratification_allowed debug (.input d) r = .ok false) ∧
    (d.task.task_type = .classification →
      ((∀ x ∈ d.target.flat, d.target.flat.count x ≠ 1) →
        (pyRound ((d.target.len : ℚ) * (1 - r)) <
            ((npUnique d.target.flat).1.length : Int) →
          are_stratification_allowed debug (.input d) r = .ok false) ∧
        (¬ pyRound ((d.target.len : ℚ) * (1 - r)) <
            ((npUnique d.target.flat).1.length : Int) →
          are_stratification_allowed debug (.input d) r = .ok true)) ∧
      ((∃ x ∈ d.target.flat, d.target.flat.count x = 1) →
        (debug = true → are_stratification_allowed debug (.input d) r = .ok false) ∧
        (debug = false → are_stratification_allowed debug (.input d) r =
          .error (.valueError (singleton_classes_msg (singleLabels d.target.flat)
            "classification")))) ∧
      (∀ x : Int, x ∈ singleLabels d.target.flat ↔ d.target.flat.count x = 1)) := by
  refine ⟨?_, ?_⟩
  · intro hne
    rw [are_strat_input, if_pos hne]
  · intro hcls
    refine ⟨?_, ?_, fun x => mem_singleLabels⟩
    · intro hall
      have htrue : ((npUnique d.target.flat).2.all fun c => 1 < c) = true :=
        (npUnique_all_gt_one_iff d.target.flat).mpr hall
      constructor
      · intro hlt
        rw [are_strat_input, if_neg (by simp [hcls]), if_neg (by simp [htrue]),
          if_pos hlt]
      · intro hge
        rw [are_strat_input, if_neg (by simp [hcls]), if_neg (by simp [htrue]),
          if_neg hge]
    · intro hex
      have hfalse : ((npUnique d.target.flat).2.all fun c => 1 < c) = false := by
        rcases hex with ⟨x, hx, hcnt⟩
        by_contra h
        have htrue : ((npUnique d.target.flat).2.all fun c => 1 < c) = true := by
          cases hb : (npUnique d.target.flat).2.all fun c => 1 < c
          · exact absurd hb h
          · rfl
        exact (npUnique_all_gt_one_iff d.target.flat).mp htrue x hx hcnt
      constructor
      · intro hdbg
        rw [are_strat_input, if_neg (by simp [hcls]), if_pos (by simp [hfalse]), hdbg,
          if_pos rfl]
      · intro hdbg
        rw [are_strat_input, if_neg (by simp [hcls]), if_pos (by simp [hfalse]), hdbg,
          if_neg (by simp), hcls]
        rfl

/-- Concrete classification container that passes the stratification checks:
4 samples, classes `{0: 2, 1: 2}`, `split_ratio = 0.5`. -/
def dStratOk : InputData :=
  ⟨[0, 1, 2, 3], [1, 2, 3, 4], .one [0, 0, 1, 1], ⟨.classification, 0⟩, "table"⟩

theorem C5_stratification_rules_witness :
    are_stratification_allowed true (.input dStratCounter) (4/5) = .ok false ∧
    are_stratification_allowed false (.input dStratOk) (1/2) = .ok true := by
  constructor
  · exact ((C5_stratification_rules true dStratCounter (4/5)).2 rfl).2.1
      ⟨0, by decide, by decide⟩ |>.1 rfl
  · refine ((C5_stratification_rules false dStratOk (1/2)).2 rfl).1 (by decide) |>.2 ?_
    have hlen : ((dStratOk.target.len : ℕ) : ℚ) * (1 - 1/2) = 2 := by
      show ((4 : ℕ) : ℚ) * (1 - 1/2) = 2
      norm_num
    have hround : pyRound ((dStratOk.target.len : ℚ) * (1 - 1/2)) = 2 := by
      rw [hlen, pyRound]
      have hf : ⌊(2 : ℚ)⌋ = 2 := by norm_num
      rw [hf]
      norm_num
    rw [hround]
    decide

theorem setup_for_input_eq (debug : Bool) (d : InputData) (r : ℚ)
    (shuffle shuffle_flag stratify : Bool) (random_seed : Option Int)
    (vb : Option Int) :
    setup_for_input debug d r shuffle shuffle_flag stratify random_seed vb =
      (are_stratification_allowed debug (.input d) r).bind (fun allowed =>
        if d.data_type = "multi_ts" ∨ d.data_type = "ts" then
          .ok (.ts (split_time_series d vb).1 (split_time_series d vb).2)
        else if d.data_type = "table" ∨ d.data_type = "image" ∨ d.data_type = "text" then
          .ok (.anyCall d r ((shuffle || shuffle_flag) || (stratify && allowed))
            (if stratify && allowed then some d.target else none)
            (if (shuffle || shuffle_flag) || (stratify && allowed) then
              some (pyOrInt random_seed 42) else none))
        else Except.error (.typeError unknown_data_type_msg)) := rfl

/-- C6: in `train_test_data_setup` the effective flags satisfy: feasibly enabled
stratification forces `shuffle` on; with `shuffle` on, the seed passed to the split is
the given seed, or the default 42 when the given seed is falsy (`None` or `0`); with
`shuffle` off the seed passed to the split is `None` (the split is purely positional).
Stated on the argument tuple recorded for the `train_test_split` call of the
tabular branch. -/
theorem C6_effective_flags (debug : Bool) (d : InputData) (r : ℚ)
    (shuffle shuffle_flag stratify : Bool) (random_seed : Option Int)
    (vb : Option Int) (allowed : Bool)
    (hd : d.data_type = "table")
    (ha : are_stratification_allowed debug (.input d) r = .ok allowed) :
    setup_for_input debug d r shuffle shuffle_flag stratify random_seed vb =
      .ok (.anyCall d r ((shuffle || shuffle_flag) || (stratify && allowed))
        (if stratify && allowed then some d.target else none)
        (if (shuffle || shuffle_flag) || (stratify && allowed) then
          some (pyOrInt random_seed 42) else none)) ∧
    ((stratify && allowed) = true →
      ((shuffle || shuffle_flag) || (stratify && allowed)) = true) ∧
    (((shuffle || shuffle_flag) || (stratify && allowed)) = true →
      (if (shuffle || shuffle_flag) || (stratify && allowed) then
        some (pyOrInt random_seed 42) else none) = some (pyOrInt random_seed 42)) ∧
    (((shuffle || shuffle_flag) || (stratify && allowed)) = false →
      (if (shuffle || shuffle_flag) || (stratify && allowed) then
        some (pyOrInt random_seed 42) else none) = (none : Option Int)) := by
  refine ⟨?_, ?_, ?_, ?_⟩
  · rw [setup_for_input_eq, ha]
    show (if d.data_type = "multi_ts" ∨ d.data_type = "ts" then _
      else if d.data_type = "table" ∨ d.data_type = "image" ∨ d.data_type = "text" then _
      else _) = _
    rw [hd, if_neg (by decide), if_pos (by exact Or.inl rfl)]
  · intro h
    rw [h, Bool.or_true]
  · intro h
    rw [h]
    rfl
  · intro h
    rw [h]
    rfl

theorem C6_effective_flags_witness :
    are_stratification_allowed false (.input dStratOk) (1/2) = .ok true ∧
    dStratOk.data_type = "table" ∧
    setup_for_input false dStratOk (1/2) false false true none none =
      .ok (.anyCall dStratOk (1/2) true (some dStratOk.target) (some 42)) ∧
    setup_for_input false dStratOk (1/2) false false false (some 0) none =
      .ok (.anyCall dStratOk (1/2) false none none) := by
  have ha := C5_stratification_rules_witness.2
  have h1 := C6_effective_flags false dStratOk (1/2) false false true none none true
    rfl ha
  have h2 := C6_effective_flags false dStratOk (1/2) false false false (some 0) none true
    rfl ha
  exact ⟨ha, rfl, h1.1, h2.1⟩

/-- Concrete container with an unrecognised `data_type` tag. -/
def dCustomType : InputData :=
  ⟨[0], [5], .one [7], ⟨.regression, 0⟩, "custom_type"⟩

/-- C7 counterexample: (i) for an `InputData` with the unknown `data_type`
`"custom_type"`, the raised `TypeError` message does not mention that data type at all —
the source interpolates `type(data)`, the container class; (ii) a non-container argument
without a `task` attribute (e.g. a plain `list`) dies inside
`_are_stratification_allowed` with an `AttributeError` that mentions neither supported
container type, before the advertised `ValueError` is reached. -/
theorem C7_counterexample :
    setup_for_input false dCustomType (4/5) false false true (some 42) none =
      .error (.typeError unknown_data_type_msg) ∧
    ¬ OccursIn "custom_type" unknown_data_type_msg ∧
    train_test_data_setup false (.other "list" none none) (4/5) false false true
      (some 42) none 7 = .error (.attributeError (no_attr_msg "list" "task")) ∧
    ¬ OccursIn "MultiModalData" (no_attr_msg "list" "task") := by
  refine ⟨rfl, ?_, rfl, ?_⟩
  · exact not_occursIn_of_strOccurs_false (by decide)
  · exact not_occursIn_of_strOccurs_false (by decide)

/-- C7 (amended): an `InputData` whose `data_type` is outside
`{multi_ts, ts, table, image, text}` raises a `TypeError` whose message names the
container class `InputData` and lists the supported data types (but not the offending
`data_type` value, which is absent from the message — see the counterexample).  An
argument that is neither an `InputData` nor a `MultiModalData` but exposes a
non-classification `task` attribute raises the `ValueError` naming its type and the
supported container types; an argument without a `task` attribute fails earlier, inside
the stratification check. -/
theorem C7_type_errors (debug : Bool) (d : InputData) (r : ℚ)
    (shuffle shuffle_flag stratify : Bool) (random_seed : Option Int)
    (vb : Option Int) (allowed : Bool)
    (ha : are_stratification_allowed debug (.input d) r = .ok allowed)
    (hd : d.data_type ∉ supported_data_types) :
    setup_for_input debug d r shuffle shuffle_flag stratify random_seed vb =
      .error (.typeError unknown_data_type_msg) ∧
    OccursIn "InputData" unknown_data_type_msg ∧
    OccursIn "DataTypesEnum.multi_ts, DataTypesEnum.ts, DataTypesEnum.table, DataTypesEnum.image, DataTypesEnum.text"
      unknown_data_type_msg ∧
    (∀ (type_name : String) (tk : Task) (tg : Option Target) (draw : Int),
      tk.task_type ≠ .classification →
      train_test_data_setup debug (.other type_name (some tk) tg) r shuffle shuffle_flag
        stratify random_seed vb draw =
        .error (.valueError (dataset_not_supported_msg type_name))) ∧
    (∀ type_name : String,
      OccursIn type_name (dataset_not_supported_msg type_name) ∧
      OccursIn "InputData, MultiModalData" (dataset_not_supported_msg type_name)) := by
  have hsup : ∀ s ∈ supported_data_types, ¬ d.data_type = s := by
    intro s hs he
    exact hd (he ▸ hs)
  refine ⟨?_, ?_, ?_, ?_, ?_⟩
  · rw [setup_for_input_eq, ha]
    show (if d.data_type = "multi_ts" ∨ d.data_type = "ts" then _
      else if d.data_type = "table" ∨ d.data_type = "image" ∨ d.data_type = "text" then _
      else _ : Except PyError SplitOutcome) = _
    rw [if_neg, if_neg]
    · rintro (h | h | h)
      · exact hsup "table" (by decide) h
      · exact hsup "image" (by decide) h
      · exact hsup "text" (by decide) h
    · rintro (h | h)
      · exact hsup "multi_ts" (by decide) h
      · exact hsup "ts" (by decide) h
  · exact ⟨"Unknown data type <class " ++ sq ++ "fedot.core.data.data.",
      sq ++ ">. Supported data types: DataTypesEnum.multi_ts, DataTypesEnum.ts, DataTypesEnum.table, DataTypesEnum.image, DataTypesEnum.text",
      by decide⟩
  · exact ⟨"Unknown data type <class " ++ sq ++ "fedot.core.data.data.InputData" ++ sq ++
      ">. Supported data types: ", "", by decide⟩
  · intro type_name tk tg draw htk
    cases tk with
    | mk tt fl =>
      cases tt with
      | classification => exact absurd rfl htk
      | regression => rfl
      | ts_forecasting => rfl
  · intro type_name
    constructor
    · refine ⟨"Dataset <class " ++ sq,
        sq ++ "> is not supported. Supported types: InputData, MultiModalData", ?_⟩
      rw [dataset_not_supported_msg]
      rw [String.append_assoc, String.append_assoc]
    · refine ⟨"Dataset <class " ++ sq ++ type_name ++ sq ++
        "> is not supported. Supported types: ", "", ?_⟩
      rw [dataset_not_supported_msg, String.append_empty]
      have hsplit : ("> is not supported. Supported types: InputData, MultiModalData" :
          String) = "> is not supported. Supported types: " ++ "InputData, MultiModalData" := by
        decide
      rw [hsplit, ← String.append_assoc]

theorem C7_type_errors_witness :
    are_stratification_allowed false (.input dCustomType) (4/5) = .ok false ∧
    dCustomType.data_type ∉ supported_data_types ∧
    setup_for_input false dCustomType (4/5) true false false none none =
      .error (.typeError unknown_data_type_msg) ∧
    train_test_data_setup false (.other "OutputData" (some ⟨.regression, 0⟩) none) (4/5)
      true false false none none 7 =
      .error (.valueError (dataset_not_supported_msg "OutputData")) := by
  have ha : are_stratification_allowed false (.input dCustomType) (4/5) = .ok false := by
    rw [are_strat_input, if_pos (by decide)]
  have h := C7_type_errors false dCustomType (4/5) true false false none none false ha
    (by decide)
  exact ⟨ha, by decide, h.1, h.2.2.2.1 "OutputData" ⟨.regression, 0⟩ none 7 (by decide)⟩

/-!
Embedding of `fedot/core/operations/evaluation/operation_implementations/models/ts_implementations/rnn.py`.

Torch (device selection, seeding, tensors, training) is an external collaborator; the
embedding covers the construction-time checks of `RNNImplementation.__init__`, the
model dispatch of `RNNImplementation.fit` and the conv-block handling of the model
classes, which is where the analysed claims live.
-/

/-- The allowed values of the `rnn_type` parameter (rnn.py line 60). -/
def allowed_rnn_types : List String := ["rnn_elman", "rnn_jordan", "lstm", "gru"]

/-- The rendering of the allowed-types list inside the `ValueError` of
`RNNImplementation.__init__` (rnn.py line 62). -/
def allowed_rnn_types_str : String :=
  sq ++ "rnn_elman" ++ sq ++ ", " ++ sq ++ "rnn_jordan" ++ sq ++ ", " ++ sq ++ "lstm" ++
    sq ++ ", " ++ sq ++ "gru" ++ sq

/-- The `ValueError` message of `RNNImplementation.__init__` (rnn.py lines 61-62). -/
def unknown_rnn_msg (t : String) : String :=
  "Unknown type of RNN: " ++ t ++ ". Allowed types: " ++ allowed_rnn_types_str

/-- Embeds `self.type_rnn = params.get('rnn_type') or 'rnn_elman'` (rnn.py line 59):
Python `or` treats the empty string as falsy and falls back to the default. -/
def rnn_type_of_params (rnn_type : Option String) : String :=
  match rnn_type with
  | some s => if s = "" then "rnn_elman" else s
  | none => "rnn_elman"

/-- Embeds the `rnn_type` validation of `RNNImplementation.__init__` (rnn.py lines
59-62), returning the accepted `self.type_rnn` or the construction-time error. -/
def rnn_init_type (rnn_type : Option String) : Except PyError String :=
  let t := rnn_type_of_params rnn_type
  if t ∈ allowed_rnn_types then .ok t
  else .error (.valueError (unknown_rnn_msg t))

/-- Tags for the three model classes that `RNNImplementation.fit` can construct. -/
inductive ModelTag
  | gruModel
  | lstmModel
  | rnnModel
deriving DecidableEq, Repr

/-- Embeds `conv_layers = self.params.get('conv_layers') or None` (rnn.py line 117):
Python `or` maps the falsy value `0` to `None`. -/
def fit_conv_layers (p : Option Int) : Option Int :=
  match p with
  | some v => if v = 0 then none else some v
  | none => none

/-- The Python `TypeError` raised by subscripting a bound method. -/
def method_not_subscriptable_msg : String :=
  sq ++ "builtin_function_or_method" ++ sq ++ " object is not subscriptable"

/-- The Python `TypeError` for the missing `conv` parameter of `RNNModel.__init__`. -/
def missing_conv_arg_msg : String :=
  "RNNModel.__init__() missing 1 required positional argument: " ++ sq ++ "conv" ++ sq

/-- Embeds the convolutional pre-layer handling of `GRUModel.__init__` (rnn.py lines
209-226).  When `conv_layers is not None and conv_layers > 0`, the first statement of
the branch is `assert conv_params.get['out_channels'] is None, ...` (line 211): it
subscripts the bound dict method `get` (`conv_params.get[...]` instead of
`conv_params.get(...)`), which raises `TypeError` before any assert condition or message
is evaluated.  Hence the branch raises for every `conv_params` content and the conv
stack is never built; with `conv_layers` absent or not positive the branch is skipped.
The result records whether a conv stack was attached. -/
def gru_model_init_conv (conv_layers : Option Int)
    (out_channels kernel_size : Option (List Nat)) : Except PyError Bool :=
  match conv_layers with
  | some n =>
    if 0 < n then .error (.typeError method_not_subscriptable_msg) else .ok false
  | none => .ok false

/-- Embeds the identical convolutional pre-layer handling of `LSTMModel.__init__`
(rnn.py lines 259-278, same `conv_params.get[...]` subscription on line 261). -/
def lstm_model_init_conv (conv_layers : Option Int)
    (out_channels kernel_size : Option (List Nat)) : Except PyError Bool :=
  match conv_layers with
  | some n =>
    if 0 < n then .error (.typeError method_not_subscriptable_msg) else .ok false
  | none => .ok false

/-- Embeds the model dispatch of `RNNImplementation.fit` (rnn.py lines 121-144): which
model class the `if/elif` chain assigns to `self.model`; `'rnn_jordan'` matches no
branch. -/
def fit_model_branch (type_rnn : String) : Option ModelTag :=
  if type_rnn = "gru" then some .gruModel
  else if type_rnn = "lstm" then some .lstmModel
  else if type_rnn = "rnn_elman" then some .rnnModel
  else none

/-- Embeds model construction inside `RNNImplementation.fit` (rnn.py lines 121-144):
`GRUModel`/`LSTMModel` raise from their conv blocks when conv layers are enabled;
`RNNModel(...)` raises `TypeError` unconditionally because `fit` (lines 138-144) does
not pass the required positional parameter `conv` of `RNNModel.__init__` (line 306);
for `'rnn_jordan'` no branch runs and `self.model` stays `None`. -/
def fit_build_model (type_rnn : String) (conv_layers : Option Int)
    (out_channels kernel_size : Option (List Nat)) : Except PyError (Option ModelTag) :=
  if type_rnn = "gru" then
    (gru_model_init_conv (fit_conv_layers conv_layers) out_channels kernel_size).map
      (fun _ => some .gruModel)
  else if type_rnn = "lstm" then
    (lstm_model_init_conv (fit_conv_layers conv_layers) out_channels kernel_size).map
      (fun _ => some .lstmModel)
  else if type_rnn = "rnn_elman" then
    Except.error (.typeError missing_conv_arg_msg)
  else
    .ok none

/-- Embeds `RNNImplementation.fit` up to `model = self.model.to(self.device)` (rnn.py
line 148): after the dispatch, a `None` model raises `AttributeError` when used. -/
def rnn_fit (type_rnn : String) (conv_layers : Option Int)
    (out_channels kernel_size : Option (List Nat)) : Except PyError ModelTag := do
  let m ← fit_build_model type_rnn conv_layers out_channels kernel_size
  match m with
  | some tag => return tag
  | none => Except.error (.attributeError (no_attr_msg "NoneType" "to"))

/-- C8 counterexample: the empty string is outside the allowed set, yet constructing
with `rnn_type = ''` raises nothing — Python `or` treats `''` as falsy and silently
falls back to the `'rnn_elman'` default. -/
theorem C8_counterexample :
    ("" : String) ∉ allowed_rnn_types ∧
    rnn_init_type (some "") = .ok "rnn_elman" ∧
    ∀ e : PyError, rnn_init_type (some "") ≠ .error e := by
  refine ⟨by decide, rfl, ?_⟩
  intro e h
  rw [show rnn_init_type (some "") = .ok "rnn_elman" from rfl] at h
  cases h

/-- C8 (amended): constructing an `RNNImplementation` with a non-empty `rnn_type` string
outside `{'rnn_elman', 'rnn_jordan', 'lstm', 'gru'}` fails fast at construction with an
enumerated-value error naming the unknown type and the allowed types; any of the four
listed tags is accepted without this error; the empty string is treated as unset and
silently falls back to the `'rnn_elman'` default. -/
theorem C8_rnn_type_check (s : String) :
    (s ≠ "" → s ∉ allowed_rnn_types →
      rnn_init_type (some s) = .error (.valueError (unknown_rnn_msg s)) ∧
      OccursIn s (unknown_rnn_msg s) ∧
      OccursIn allowed_rnn_types_str (unknown_rnn_msg s)) ∧
    (s ∈ allowed_rnn_types → rnn_init_type (some s) = .ok s) ∧
    rnn_init_type none = .ok "rnn_elman" := by
  refine ⟨?_, ?_, rfl⟩
  · intro hne hmem
    have ht : rnn_type_of_params (some s) = s := by
      show (if s = "" then "rnn_elman" else s) = s
      rw [if_neg hne]
    refine ⟨?_, ?_, ?_⟩
    · simp only [rnn_init_type]
      rw [ht, if_neg hmem]
    · exact ⟨"Unknown type of RNN: ", ". Allowed types: " ++ allowed_rnn_types_str,
        String.append_assoc _ _ _⟩
    · exact ⟨"Unknown type of RNN: " ++ s ++ ". Allowed types: ", "",
        (String.append_empty _).symm⟩
  · intro hmem
    simp only [allowed_rnn_types, List.mem_cons, List.mem_singleton,
      List.not_mem_nil, or_false] at hmem
    rcases hmem with rfl | rfl | rfl | rfl <;> rfl

theorem C8_rnn_type_check_witness :
    ("transformer" : String) ≠ "" ∧ ("transformer" : String) ∉ allowed_rnn_types ∧
    rnn_init_type (some "transformer") =
      .error (.valueError (unknown_rnn_msg "transformer")) ∧
    ("gru" : String) ∈ allowed_rnn_types ∧
    rnn_init_type (some "gru") = .ok "gru" := by
  refine ⟨by decide, by decide, ?_, by decide, ?_⟩
  · exact ((C8_rnn_type_check "transformer").1 (by decide) (by decide)).1
  · exact (C8_rnn_type_check "gru").2.1 (by decide)

/-- C9: the code contradicts the claim's success case (which matches the intent stated
by the assert messages).  With `conv_layers = 1` and matching one-element
`conv_out_channels`/`conv_kernel_size` lists, `GRUModel.__init__` raises `TypeError`
(`conv_params.get['out_channels']` subscripts the bound method `get`) instead of
building the conv stack; enabling conv layers without the dependent parameters raises
the same `TypeError` rather than the intended assertion; disabled conv layers raise
nothing. -/
theorem C9_conv_assert_bug :
    gru_model_init_conv (fit_conv_layers (some 1)) (some [8]) (some [3]) =
      .error (.typeError method_not_subscriptable_msg) ∧
    rnn_fit "gru" (some 1) (some [8]) (some [3]) =
      .error (.typeError method_not_subscriptable_msg) ∧
    gru_model_init_conv (fit_conv_layers (some 1)) none none =
      .error (.typeError method_not_subscriptable_msg) ∧
    (∀ oc ks : Option (List Nat), gru_model_init_conv (fit_conv_layers (some 1)) oc ks ≠
      .ok true) ∧
    gru_model_init_conv (fit_conv_layers (some 0)) none none = .ok false ∧
    gru_model_init_conv (fit_conv_layers none) none none = .ok false := by
  refine ⟨rfl, rfl, rfl, ?_, rfl, rfl⟩
  intro oc ks h
  rw [show gru_model_init_conv (fit_conv_layers (some 1)) oc ks =
    .error (.typeError method_not_subscriptable_msg) from rfl] at h
  cases h

/-- C10: `'rnn_jordan'` is accepted at construction, but `RNNImplementation.fit` has
model-construction branches only for `'gru'`, `'lstm'` and `'rnn_elman'`; for
`'rnn_jordan'` no model is constructed (`self.model` stays `None`), so every `fit` call
fails when the `None` model is used (`self.model.to(self.device)`). -/
theorem C10_jordan_never_fitted :
    rnn_init_type (some "rnn_jordan") = .ok "rnn_jordan" ∧
    fit_model_branch "rnn_jordan" = none ∧
    (∀ (conv_layers : Option Int) (out_channels kernel_size : Option (List Nat)),
      fit_build_model "rnn_jordan" conv_layers out_channels kernel_size = .ok none) ∧
    (∀ (conv_layers : Option Int) (out_channels kernel_size : Option (List Nat)),
      rnn_fit "rnn_jordan" conv_layers out_channels kernel_size =
        .error (.attributeError (no_attr_msg "NoneType" "to"))) := by
  exact ⟨rfl, rfl, fun _ _ _ => rfl, fun _ _ _ => rfl⟩

end FedotSpec
